import Mathlib

/-!
Verification of the youtube-channel-scraper core against its source.

The Python source files embedded here:
  * `src/youtube_scraper_COMPLETE_FIXED.py` — `YouTubeScraper.search_single_channel`,
    `search_channels`, `extract_single_channel_links`, `extract_social_links`,
    `_normalize_platform`;
  * `src/selenium_utils_COMPLETE.py` — `safe_get`, `normalize_url`,
    `clean_youtube_redirect`;
  * `src/data_processor_COMPLETE_FIXED.py` — `DataProcessor.categorize_views`.

Selenium/browser effects are modelled by explicit environment records that
record what each fail-soft primitive would observe; Python exceptions are
modelled with `Except`, Python `None` with `Option`, and Python string
truthiness (`if s:`) with an explicit emptiness test.
-/

namespace Scraper

/-! ### Python string primitives

`s.lower()`, substring containment (`needle in hay`), `s.strip()`,
`s.replace(a, b)` as used by the source. -/

/-- Python `s.lower()` (ASCII case folding suffices for the keywords used). -/
def pyLower (s : String) : String :=
  ⟨s.data.map Char.toLower⟩

/-- `leadsWith needle hay`: `needle` is a prefix of `hay`. -/
def leadsWith : List Char → List Char → Bool
  | [], _ => true
  | _ :: _, [] => false
  | a :: as, b :: bs => a == b && leadsWith as bs

/-- `occursIn needle hay`: `needle` occurs contiguously inside `hay`. -/
def occursIn (needle : List Char) : List Char → Bool
  | [] => needle.isEmpty
  | hay@(_ :: t) => leadsWith needle hay || occursIn needle t

/-- Python `needle in hay` on strings. -/
def strContains (hay needle : String) : Bool :=
  occursIn needle.data hay.data

/-! ### `YouTubeScraper._normalize_platform` (youtube_scraper_COMPLETE_FIXED.py:269-303)

An if/elif cascade over lowered link text and URL.  Note: the Discord,
YouTube-Channel and Email branches test only the URL in the source. -/

/-- Embeds `YouTubeScraper._normalize_platform`. -/
def _normalize_platform (platform_text url : String) : Option String :=
  let p := pyLower platform_text
  let u := pyLower url
  if strContains u "instagram" || strContains p "instagram" then some "Instagram"
  else if strContains u "tiktok" || strContains p "tiktok" then some "TikTok"
  else if strContains u "twitter" || strContains u "x.com" || strContains p "twitter" then
    some "X (Twitter)"
  else if strContains u "facebook" || strContains p "facebook" then some "Facebook"
  else if strContains u "telegram" || strContains u "t.me" || strContains p "telegram" then
    some "Telegram"
  else if strContains u "discord" || strContains u "discord.gg" then some "Discord"
  else if strContains u "snapchat" || strContains p "snapchat" then some "Snapchat"
  else if strContains u "youtube.com/channel" || strContains u "youtube.com/c/" then
    some "YouTube Channel"
  else if strContains u "@" then some "Email"
  else none

/-- The closed set of platform labels the normalizer can produce. -/
def platformLabels : List String :=
  ["Instagram", "TikTok", "X (Twitter)", "Facebook", "Telegram", "Discord",
   "Snapchat", "YouTube Channel", "Email"]

/-- The normalizer's matching table, in source order: for each platform its
match predicate (over the already-lowered text `p` and URL `u`) and label. -/
def platTable : List ((String → String → Bool) × String) :=
  [(fun p u => strContains u "instagram" || strContains p "instagram", "Instagram"),
   (fun p u => strContains u "tiktok" || strContains p "tiktok", "TikTok"),
   (fun p u => strContains u "twitter" || strContains u "x.com" || strContains p "twitter",
    "X (Twitter)"),
   (fun p u => strContains u "facebook" || strContains p "facebook", "Facebook"),
   (fun p u => strContains u "telegram" || strContains u "t.me" || strContains p "telegram",
    "Telegram"),
   (fun p u => strContains u "discord" || strContains u "discord.gg", "Discord"),
   (fun p u => strContains u "snapchat" || strContains p "snapchat", "Snapchat"),
   (fun p u => strContains u "youtube.com/channel" || strContains u "youtube.com/c/",
    "YouTube Channel"),
   (fun p u => strContains u "@", "Email")]

/-- First-match-wins walk over a matching table. -/
def findLabel : List ((String → String → Bool) × String) → String → String → Option String
  | [], _, _ => none
  | (f, lab) :: rest, p, u => if f p u then some lab else findLabel rest p u

/-- Whether entry `i` of the normalizer's table matches the (raw) inputs. -/
def platMatchAt (i : Nat) (platform_text url : String) : Bool :=
  match platTable.get? i with
  | some e => e.1 (pyLower platform_text) (pyLower url)
  | none => false

/-- All keyword substrings the normalizer ever tests against the URL. -/
def urlKeywords : List String :=
  ["instagram", "tiktok", "twitter", "x.com", "facebook", "telegram", "t.me",
   "discord", "discord.gg", "snapchat", "youtube.com/channel", "youtube.com/c/", "@"]

/-- The URL matches none of the normalizer's URL keywords. -/
def urlHasNoPlatformKeyword (u : String) : Prop :=
  ∀ kw ∈ urlKeywords, strContains (pyLower u) kw = false

instance (u : String) : Decidable (urlHasNoPlatformKeyword u) :=
  inferInstanceAs (Decidable (∀ kw ∈ urlKeywords, strContains (pyLower u) kw = false))

/-- What the normalizer's cascade reduces to on a keyword-free URL: only the
six platforms whose branch also tests the lowered link text can fire —
Discord, the YouTube-channel pattern and Email test the URL alone. -/
def textOnlyNormalize (p : String) : Option String :=
  if strContains p "instagram" then some "Instagram"
  else if strContains p "tiktok" then some "TikTok"
  else if strContains p "twitter" then some "X (Twitter)"
  else if strContains p "facebook" then some "Facebook"
  else if strContains p "telegram" then some "Telegram"
  else if strContains p "snapchat" then some "Snapchat"
  else none

/-! ### `DataProcessor.categorize_views` (data_processor_COMPLETE_FIXED.py:158-189) -/

/-- The threshold table of `categorize_views`; `none` stands for
`float('inf')`, which every integer is below. -/
def viewCategories : List (String × Option Int) :=
  [("< 5k", some 5000), ("5k-10k", some 10000), ("10k-25k", some 25000),
   ("25k-50k", some 50000), ("50k-100k", some 100000), ("100k-250k", some 250000),
   ("250k-1M", some 1000000), ("1M+", none)]

/-- The `for category, threshold in categories` loop body: first bin whose
threshold strictly exceeds the value; the trailing `return "1M+"`. -/
def catLoop : List (String × Option Int) → Int → String
  | [], _ => "1M+"
  | (lab, some th) :: rest, v => if v < th then lab else catLoop rest v
  | (lab, none) :: _, _ => lab

/-- Embeds `DataProcessor.categorize_views` (`avg_views is None` → `"N/A"`). -/
def categorize_views : Option Int → String
  | none => "N/A"
  | some v => catLoop viewCategories v

/-- The ordered eight labels of the engagement bins. -/
def viewBinLabels : List String :=
  ["< 5k", "5k-10k", "10k-25k", "25k-50k", "50k-100k", "100k-250k", "250k-1M", "1M+"]

/-- Index (0..7) of the bin `categorize_views` selects for a present value. -/
def viewBinIdx (v : Int) : Nat :=
  if v < 5000 then 0
  else if v < 10000 then 1
  else if v < 25000 then 2
  else if v < 50000 then 3
  else if v < 100000 then 4
  else if v < 250000 then 5
  else if v < 1000000 then 6
  else 7

/-! ### `clean_youtube_redirect` (selenium_utils_COMPLETE.py:156-168)

The source calls `urllib.parse.urlparse` / `parse_qs` on the wrapper URL and
takes `params['q'][0]`.  We embed the relevant stdlib behaviour: the query is
the part of the URL after the first `?` (fragment after `#` stripped first);
`parse_qs` splits the query on `&`, splits each pair at its first `=`, drops
empty pairs, pairs without `=` and pairs with a blank value, and
`+`/percent-decodes names and values; `params['q'][0]` is the value of the
first pair whose decoded name is `q`.  (Percent escapes are decoded
byte-as-character; the claims involve no multi-byte escapes.) -/

/-- Split a character list at every occurrence of `sep` (Python `split`). -/
def splitAll (sep : Char) : List Char → List (List Char)
  | [] => [[]]
  | c :: rest =>
    let r := splitAll sep rest
    if c = sep then [] :: r
    else
      match r with
      | [] => [[c]]
      | h :: t => (c :: h) :: t

/-- The characters after the first occurrence of `sep`, if any. -/
def afterChar (sep : Char) : List Char → Option (List Char)
  | [] => none
  | c :: rest => if c = sep then some rest else afterChar sep rest

/-- Value of a hex digit, if `c` is one. -/
def hexVal (c : Char) : Option Nat :=
  if '0' ≤ c ∧ c ≤ '9' then some (c.toNat - 48)
  else if 'A' ≤ c ∧ c ≤ 'F' then some (c.toNat - 55)
  else if 'a' ≤ c ∧ c ≤ 'f' then some (c.toNat - 87)
  else none

/-- Percent-decoding as in `urllib.parse.unquote`: a `%` followed by two hex
digits becomes that character; invalid escapes are kept literally.  The fuel
argument (instantiated with the list length, which bounds the number of
steps) keeps the recursion structural so that the kernel can evaluate it. -/
def unquoteAux : Nat → List Char → List Char
  | 0, l => l
  | _, [] => []
  | fuel + 1, c :: rest =>
    if c = '%' then
      match rest with
      | a :: b :: rest2 =>
        match hexVal a, hexVal b with
        | some x, some y => Char.ofNat (16 * x + y) :: unquoteAux fuel rest2
        | _, _ => '%' :: unquoteAux fuel rest
      | _ => '%' :: unquoteAux fuel rest
    else c :: unquoteAux fuel rest

/-- Percent-decode a character list. -/
def unquoteChars (l : List Char) : List Char :=
  unquoteAux l.length l

/-- `parse_qs` decoding of a name or value: `+` → space, then unquote. -/
def pyQsDecode (s : List Char) : String :=
  ⟨unquoteChars (s.map (fun c => if c = '+' then ' ' else c))⟩

/-- The query component of a URL: after the first `?`, fragment stripped. -/
def urlQuery (u : String) : List Char :=
  let noFrag := u.data.takeWhile (fun c => c ≠ '#')
  match afterChar '?' noFrag with
  | some q => q
  | none => []

/-- `parse_qs(query)['q'][0]` when the query carries a `q` parameter. -/
def firstQ (query : List Char) : Option String :=
  (splitAll '&' query).findSome? (fun pair =>
    if pair.isEmpty then none
    else
      match afterChar '=' pair with
      | none => none
      | some val =>
        if val.isEmpty then none
        else if pyQsDecode (pair.takeWhile (fun c => c ≠ '=')) = "q" then
          some (pyQsDecode val)
        else none)

/-- Embeds `clean_youtube_redirect`.  `none` models Python `None` (falsy, so
returned unchanged); an empty string is likewise falsy. -/
def clean_youtube_redirect (url : Option String) : Option String :=
  match url with
  | none => none
  | some u =>
    if u = "" then some u
    else if strContains u "redirect" then
      match firstQ (urlQuery u) with
      | some v => some v
      | none => some u
    else some u

/-! ### `YouTubeScraper.extract_single_channel_links`
(youtube_scraper_COMPLETE_FIXED.py:151-232)

The rendered pages are modelled by `ChannelPageEnv`: whether driver creation
succeeds (`create_chrome_driver` raises otherwise — the only statement in the
method's `try` block that can raise, since every `selenium_utils` helper used
here is fail-soft and the about-section `find_element` calls sit in their own
`try/except: continue`), whether each `safe_get` succeeds, and the anchors the
fail-soft locators would return. -/

structure DescAnchor where
  text : String
  href : Option String
deriving DecidableEq, Repr

structure AboutEntry where
  /-- `el.find_element(...)` succeeds for this entry; on failure the inner
  `except: continue` skips just this entry. -/
  lookupOk : Bool
  titleText : String
  href : Option String
deriving DecidableEq, Repr

structure ChannelPageEnv where
  createOk : Bool
  featuredOk : Bool
  descAnchors : List DescAnchor
  aboutOk : Bool
  aboutEntries : List AboutEntry
deriving DecidableEq, Repr

/-- One anchor through the redirect-unwrap + normalizer pipeline: the pair the
loop body appends to `results`, if any (`if clean_url:` / `if platform:`). -/
def processAnchor (text : String) (href : Option String) : Option (String × String) :=
  match clean_youtube_redirect href with
  | none => none
  | some u =>
    if u = "" then none
    else
      match _normalize_platform text u with
      | some plat => some (plat, u)
      | none => none

/-- The method's `try`-block body: `.error rs` means an exception escaped to
the outer handler with `results = rs` collected at that point. -/
def extractBodyE (env : ChannelPageEnv) :
    Except (List (String × String)) (List (String × String)) :=
  if env.createOk = false then .error []
  else if env.featuredOk = false then .ok []
  else
    let descResults := env.descAnchors.filterMap (fun a => processAnchor a.text a.href)
    let aboutResults :=
      if env.aboutOk then
        env.aboutEntries.filterMap (fun e =>
          if e.lookupOk then processAnchor e.titleText e.href else none)
      else []
    .ok (descResults ++ aboutResults)

/-- Embeds `extract_single_channel_links`: the outer `except` logs and falls
through to `return results`, so the method returns whatever was collected. -/
def extract_single_channel_links (env : ChannelPageEnv) : List (String × String) :=
  match extractBodyE env with
  | .ok r => r
  | .error r => r

/-! ### `YouTubeScraper.search_single_channel`
(youtube_scraper_COMPLETE_FIXED.py:43-105) and `safe_get`
(selenium_utils_COMPLETE.py:72-93)

Each attempt of the retry loop is modelled by an `AttemptEnv`; the stream of
attempts by `Nat → AttemptEnv`.  `safe_get` catches `TimeoutException` and
any other exception and returns `False`, so navigation failures never reach
the resolver's `except` branch. -/

/-- What `driver.get(url)` does inside `safe_get`. -/
inductive NavOutcome
  | ok
  | timeout
  | exn
deriving DecidableEq, Repr

/-- Embeds `safe_get`: `True` on success, `False` on timeout or exception. -/
def safe_get : NavOutcome → Bool
  | .ok => true
  | .timeout => false
  | .exn => false

structure AttemptEnv where
  /-- `create_chrome_driver` succeeds; when `false` it raises and the
  attempt's `except Exception` branch runs. -/
  createOk : Bool
  directNav : NavOutcome
  /-- `"404" in driver.title` on the direct-URL page. -/
  titleHas404 : Bool
  /-- `"This channel" in driver.page_source` on the direct-URL page. -/
  pageHasUnavailable : Bool
  searchNav : NavOutcome
  /-- `href` attributes of the `/@`-link elements found on the results page
  (`get_attribute_safe` returns `None` on failure). -/
  searchHrefs : List (Option String)
deriving DecidableEq, Repr

/-- `alias_clean = channel_name.strip().replace(" ", "")`. -/
def alias_clean (channel_name : String) : String :=
  channel_name.trim.replace " " ""

/-- `direct_url = f"https://www.youtube.com/@{alias_clean}"`. -/
def direct_url (channel_name : String) : String :=
  "https://www.youtube.com/@" ++ alias_clean channel_name

/-- Embeds `normalize_url` (selenium_utils_COMPLETE.py:149-153). -/
def normalize_url (url : String) : String :=
  if url.startsWith "/" then "https://www.youtube.com" ++ url else url

/-- One iteration of the retry loop's `try` body: `.ok r` models a `return`
(`r = none` is the `return None` on line 91), `.error ()` an exception
reaching the `except Exception` branch. -/
def runAttempt (channel_name : String) (a : AttemptEnv) : Except Unit (Option String) :=
  if a.createOk = false then .error ()
  else if safe_get a.directNav && !a.titleHas404 && !a.pageHasUnavailable then
    .ok (some (direct_url channel_name))
  else if safe_get a.searchNav then
    match a.searchHrefs.head? with
    | some (some href) =>
      if href = "" then .ok none else .ok (some (normalize_url href))
    | _ => .ok none
  else .ok none

/-- The `while retries < max_retries` loop, with `fuel = max_retries -
retries`; returns the result together with the list of backoff sleeps
(`2 ** retries` seconds each) performed between attempts. -/
def resolveAux (channel_name : String) (env : Nat → AttemptEnv) (max_retries : Nat) :
    Nat → Nat → Option String × List Nat
  | 0, _ => (none, [])
  | fuel + 1, retries =>
    match runAttempt channel_name (env retries) with
    | .ok r => (r, [])
    | .error _ =>
      let retries' := retries + 1
      if retries' < max_retries then
        let res := resolveAux channel_name env max_retries fuel retries'
        (res.1, 2 ^ retries' :: res.2)
      else (none, [])

/-- Embeds `search_single_channel`: result (`none` = Python `None`) plus the
backoff-sleep trace. -/
def search_single_channel (channel_name : String) (env : Nat → AttemptEnv)
    (max_retries : Nat) : Option String × List Nat :=
  resolveAux channel_name env max_retries max_retries 0

/-- The expected backoff trace when every one of `m` attempts raises:
`[2, 4, …, 2^(m-1)]` (no sleep after the final attempt). -/
def backoffWaits (m : Nat) : List Nat :=
  (List.range (m - 1)).map (fun i => 2 ^ (i + 1))

/-! ### The batch drivers `search_channels`
(youtube_scraper_COMPLETE_FIXED.py:107-147) and `extract_social_links`
(youtube_scraper_COMPLETE_FIXED.py:234-265)

`as_completed` yields the submitted futures in completion order — some
permutation of the input list.  The models take that completed sequence (item
paired with its worker outcome: `.ok` result or `.error` for a raising
worker) and fold the per-future loop bodies over it. -/

/-- `url if url else "Not Found"` (empty string is falsy). -/
def rowValue : Option String → String
  | some u => if u = "" then "Not Found" else u
  | none => "Not Found"

/-- Embeds the result-collection loop of `search_channels`. -/
def search_channels (completed : List (String × Except Unit (Option String))) :
    List (String × String) :=
  completed.map (fun it =>
    match it.2 with
    | .ok r => (it.1, rowValue r)
    | .error _ => (it.1, "Error"))

/-- Embeds the result-collection loop of `extract_social_links`: one
`(channel_url, platform, url)` row per extracted link; a raising worker only
logs (`except` branch appends nothing). -/
def extract_social_links
    (completed : List (String × Except Unit (List (String × String)))) :
    List (String × String × String) :=
  completed.flatMap (fun it =>
    match it.2 with
    | .ok links => links.map (fun l => (it.1, l.1, l.2))
    | .error _ => [])

/-! ### Shared lemmas -/

/-- Every label the normalizer can emit lies in the closed nine-label set. -/
theorem normalize_mem_labels (t u l : String)
    (h : _normalize_platform t u = some l) : l ∈ platformLabels := by
  simp only [_normalize_platform] at h
  split_ifs at h <;> simp_all [platformLabels]

/-- Every pair `processAnchor` emits carries a label from the closed set. -/
theorem processAnchor_mem (t : String) (href : Option String) (pr : String × String)
    (h : processAnchor t href = some pr) : pr.1 ∈ platformLabels := by
  unfold processAnchor at h
  rcases hc : clean_youtube_redirect href with _ | u <;> rw [hc] at h <;> dsimp only at h
  · exact Option.noConfusion h
  · by_cases hu : u = ""
    · rw [if_pos hu] at h
      exact Option.noConfusion h
    · rw [if_neg hu] at h
      rcases hn : _normalize_platform t u with _ | plat <;> rw [hn] at h <;> dsimp only at h
      · exact Option.noConfusion h
      · cases h
        exact normalize_mem_labels t u plat hn

/-- If entry `n` of a matching table matches, `findLabel` returns the label of
some matching entry at an index `≤ n`. -/
theorem findLabel_first_match (tbl : List ((String → String → Bool) × String))
    (p u : String) :
    ∀ n e, tbl.get? n = some e → e.1 p u = true →
      ∃ k e', k ≤ n ∧ tbl.get? k = some e' ∧ e'.1 p u = true ∧
        findLabel tbl p u = some e'.2 := by
  induction tbl with
  | nil => intro n e he; simp at he
  | cons hd rest ih =>
    intro n e he hm
    rcases hd with ⟨f, lab⟩
    by_cases hf : f p u = true
    · exact ⟨0, (f, lab), Nat.zero_le n, rfl, hf, by simp [findLabel, hf]⟩
    · cases n with
      | zero =>
        simp at he
        rw [← he] at hm
        exact absurd hm hf
      | succ m =>
        simp only [List.get?] at he
        obtain ⟨k, e', hk, hget, hmatch, hfind⟩ := ih m e he hm
        refine ⟨k + 1, e', Nat.succ_le_succ hk, by simpa using hget, hmatch, ?_⟩
        simpa [findLabel, hf] using hfind

/-- Unfolding lemma for one iteration of the retry loop. -/
theorem resolveAux_succ (name : String) (env : Nat → AttemptEnv)
    (m fuel retries : Nat) :
    resolveAux name env m (fuel + 1) retries =
      match runAttempt name (env retries) with
      | .ok r => (r, [])
      | .error _ =>
        if retries + 1 < m then
          ((resolveAux name env m fuel (retries + 1)).1,
            2 ^ (retries + 1) :: (resolveAux name env m fuel (retries + 1)).2)
        else (none, []) := rfl

/-- When every attempt raises, the retry loop sleeps `2^retries` between
attempts and finally falls out of the loop returning `None`. -/
theorem resolveAux_all_errors (name : String) (env : Nat → AttemptEnv) (m : Nat)
    (hall : ∀ i, i < m → runAttempt name (env i) = .error ()) :
    ∀ k r, r + k = m →
      resolveAux name env m k r =
        (none, (List.range (k - 1)).map (fun i => 2 ^ (r + 1 + i))) := by
  intro k
  induction k with
  | zero => intro r _; simp [resolveAux]
  | succ j ih =>
    intro r hr
    have hrm : r < m := by omega
    have hstep := hall r hrm
    rw [resolveAux_succ, hstep]
    by_cases hj : r + 1 < m
    · have hrec := ih (r + 1) (by omega)
      obtain ⟨j', rfl⟩ : ∃ j', j = j' + 1 := ⟨j - 1, by omega⟩
      dsimp only
      rw [if_pos hj, hrec]
      dsimp only
      simp only [Nat.add_sub_cancel]
      rw [List.range_succ_eq_map, List.map_cons, List.map_map]
      refine congrArg (Prod.mk none) (congrArg₂ List.cons rfl (List.map_congr_left ?_))
      intro i _
      simp only [Function.comp_apply]
      congr 1
      omega
    · have hj0 : j = 0 := by omega
      subst hj0
      dsimp only
      rw [if_neg hj]
      simp

/-- Row count of `extract_social_links`: one row per link of each successful
worker, none for a raising worker. -/
theorem extract_social_links_length
    (completed : List (String × Except Unit (List (String × String)))) :
    (extract_social_links completed).length =
      (completed.map (fun it =>
        match it.2 with
        | .ok links => links.length
        | .error _ => 0)).sum := by
  induction completed with
  | nil => rfl
  | cons hd rest ih =>
    rcases hd with ⟨u, out⟩
    cases out <;>
      simp [extract_social_links, List.flatMap_cons, ih, extract_social_links] <;>
      simpa [extract_social_links] using ih

/-! ### Claims -/

/-- Claim C8 — the View Categorizer maps an absent input to `"N/A"`, uses
upper-bound-exclusive bins (`categorize(4999) = "< 5k"`,
`categorize(5000) = "5k-10k"`, `categorize(1000000) = "1M+"`), and every
input `≤ 0` falls into the lowest bin `"< 5k"`. -/
theorem claim8_view_categorizer :
    categorize_views none = "N/A" ∧
    categorize_views (some 4999) = "< 5k" ∧
    categorize_views (some 5000) = "5k-10k" ∧
    categorize_views (some 1000000) = "1M+" ∧
    ∀ v : Int, v ≤ 0 → categorize_views (some v) = "< 5k" := by
  refine ⟨rfl, by decide, by decide, by decide, ?_⟩
  intro v hv
  show catLoop viewCategories v = "< 5k"
  simp only [viewCategories, catLoop]
  rw [if_pos (by omega : v < 5000)]

/-- Witness for C8 at the concrete input `-7`. -/
theorem claim8_view_categorizer_witness :
    (-7 : Int) ≤ 0 ∧ categorize_views (some (-7)) = "< 5k" :=
  ⟨by decide, claim8_view_categorizer.2.2.2.2 (-7) (by decide)⟩

set_option maxHeartbeats 1000000 in
/-- Claim C9 — the View Categorizer is monotone: the bin label returned for a
present value `v` is the one at index `viewBinIdx v` of the ordered
enumeration, and that index is monotone non-decreasing in the input. -/
theorem claim9_categorizer_monotone :
    (∀ v : Int, categorize_views (some v) = viewBinLabels.getD (viewBinIdx v) "1M+") ∧
    ∀ a b : Int, a ≤ b → viewBinIdx a ≤ viewBinIdx b := by
  constructor
  · intro v
    show catLoop viewCategories v = _
    unfold viewBinIdx
    simp only [viewCategories, catLoop, viewBinLabels]
    split_ifs <;> rfl
  · intro a b hab
    unfold viewBinIdx
    split_ifs <;> omega

/-- Witness for C9 at the concrete pair `3 ≤ 7000`. -/
theorem claim9_categorizer_monotone_witness :
    (3 : Int) ≤ 7000 ∧ viewBinIdx 3 ≤ viewBinIdx 7000 :=
  ⟨by decide, claim9_categorizer_monotone.2 3 7000 (by decide)⟩

/-- Claim C10 — `clean_youtube_redirect` passes `None` through, passes every
URL without the `"redirect"` marker through unchanged, and maps every URL
with the marker and a `q` query parameter to that parameter's value; in
particular the spec's concrete example unwraps to the Instagram URL. -/
theorem claim10_redirect_unwrap :
    clean_youtube_redirect none = none ∧
    (∀ u, strContains u "redirect" = false →
      clean_youtube_redirect (some u) = some u) ∧
    (∀ u v, strContains u "redirect" = true → firstQ (urlQuery u) = some v →
      clean_youtube_redirect (some u) = some v) ∧
    clean_youtube_redirect (some "https://platform/redirect?q=https://instagram.com/x") =
      some "https://instagram.com/x" := by
  refine ⟨rfl, ?_, ?_, by decide⟩
  · intro u h
    by_cases hu : u = ""
    · simp [clean_youtube_redirect, hu]
    · simp [clean_youtube_redirect, hu, h]
  · intro u v h hq
    have hu : u ≠ "" := by
      intro he
      rw [he] at h
      exact absurd h (by decide)
    simp [clean_youtube_redirect, hu, h, hq]

/-- Witness for C10: a non-redirect URL passes through, and the concrete
redirect example carries `q` and unwraps to it. -/
theorem claim10_redirect_unwrap_witness :
    strContains "https://abc.com/page" "redirect" = false ∧
    clean_youtube_redirect (some "https://abc.com/page") = some "https://abc.com/page" :=
  ⟨by decide, claim10_redirect_unwrap.2.1 "https://abc.com/page" (by decide)⟩

/-- Claim C4 — `extract_single_channel_links` never raises: the outer handler
returns exactly what was collected when the body raises; a failed fetch of
`channel_url + "/featured"` yields `[]` immediately; and a driver-creation
failure (the raise point of the body) also yields `[]`. -/
theorem claim4_extract_never_raises :
    (∀ env rs, extractBodyE env = .error rs →
      extract_single_channel_links env = rs) ∧
    (∀ env : ChannelPageEnv, env.createOk = true → env.featuredOk = false →
      extract_single_channel_links env = []) ∧
    (∀ env : ChannelPageEnv, env.createOk = false →
      extract_single_channel_links env = []) := by
  refine ⟨?_, ?_, ?_⟩
  · intro env rs h
    unfold extract_single_channel_links
    rw [h]
  · intro env h1 h2
    unfold extract_single_channel_links extractBodyE
    simp [h1, h2]
  · intro env h1
    unfold extract_single_channel_links extractBodyE
    simp [h1]

/-- Witness for C4 at a concrete page whose featured fetch fails. -/
theorem claim4_extract_never_raises_witness :
    extract_single_channel_links ⟨true, false, [⟨"t", some "https://instagram.com/a"⟩], true, []⟩ = [] :=
  claim4_extract_never_raises.2.1
    ⟨true, false, [⟨"t", some "https://instagram.com/a"⟩], true, []⟩ rfl rfl

/-- Claim C5 — the Platform Normalizer is the first-match-wins walk of its
ordered matching table (Instagram, TikTok, X (Twitter), Facebook, Telegram,
Discord, Snapchat, YouTube Channel, Email): whenever two entries match, the
result is an entry at an index no later than the earlier of the two; a URL
with both `tiktok` and `discord` substrings yields `"TikTok"`, and
`instagram` in either field yields `"Instagram"`. -/
theorem claim5_normalizer_order :
    (∀ t u, _normalize_platform t u = findLabel platTable (pyLower t) (pyLower u)) ∧
    (∀ t u i j, i < j → platMatchAt i t u = true → platMatchAt j t u = true →
      ∃ k e, k ≤ i ∧ platTable.get? k = some e ∧
        e.1 (pyLower t) (pyLower u) = true ∧ _normalize_platform t u = some e.2) ∧
    (∀ t u, strContains (pyLower u) "instagram" = true ∨
        strContains (pyLower t) "instagram" = true →
      _normalize_platform t u = some "Instagram") ∧
    _normalize_platform "" "https://www.tiktok.com/@x?ref=discord" = some "TikTok" := by
  have h1 : ∀ t u, _normalize_platform t u = findLabel platTable (pyLower t) (pyLower u) :=
    fun t u => rfl
  refine ⟨h1, ?_, ?_, by decide⟩
  · intro t u i j hij hi hj
    have hx : ∀ n : Nat, platMatchAt n t u = true →
        ∃ e, platTable.get? n = some e ∧ e.1 (pyLower t) (pyLower u) = true := by
      intro n hn
      unfold platMatchAt at hn
      rcases hg : platTable.get? n with _ | e <;> rw [hg] at hn <;> dsimp only at hn
      · exact Bool.noConfusion hn
      · exact ⟨e, rfl, hn⟩
    obtain ⟨e, hget, hmatch⟩ := hx i hi
    obtain ⟨k, e', hk, hget', hmatch', hfind⟩ :=
      findLabel_first_match platTable (pyLower t) (pyLower u) i e hget hmatch
    exact ⟨k, e', hk, hget', hmatch', by rw [h1 t u]; exact hfind⟩
  · intro t u h
    rcases h with h | h <;> simp [_normalize_platform, h]

/-- Witness for C5: TikTok (index 1) beats Discord (index 5) on a URL
containing both keywords, and `instagram` in the URL alone suffices. -/
theorem claim5_normalizer_order_witness :
    ((1 : Nat) < 5 ∧
      platMatchAt 1 "" "https://www.tiktok.com/@x?ref=discord" = true ∧
      platMatchAt 5 "" "https://www.tiktok.com/@x?ref=discord" = true) ∧
    (∃ k e, k ≤ 1 ∧ platTable.get? k = some e ∧
      e.1 (pyLower "") (pyLower "https://www.tiktok.com/@x?ref=discord") = true ∧
      _normalize_platform "" "https://www.tiktok.com/@x?ref=discord" = some e.2) ∧
    _normalize_platform "Follow" "https://instagram.com/a" = some "Instagram" :=
  ⟨⟨by decide, by decide, by decide⟩,
   claim5_normalizer_order.2.1 "" "https://www.tiktok.com/@x?ref=discord" 1 5
     (by decide) (by decide) (by decide),
   claim5_normalizer_order.2.2.1 "Follow" "https://instagram.com/a" (Or.inl (by decide))⟩

/-- Claim C6 counterexample — a link whose text contains `discord` but whose
URL contains no platform keyword is NOT normalized to `"Discord"`: the
Discord branch of the source tests only the URL, so the result is `none`. -/
theorem claim6_counterexample :
    strContains (pyLower "discord") "discord" = true ∧
    urlHasNoPlatformKeyword "https://example.org/" ∧
    _normalize_platform "discord" "https://example.org/" = none ∧
    _normalize_platform "discord" "https://example.org/" ≠ some "Discord" := by
  exact ⟨by decide, by decide, by decide, by decide⟩

/-- Claim C6 (amended) — on a URL containing no platform keyword, the
normalizer reduces to a text-only cascade over Instagram, TikTok, X
(Twitter), Facebook, Telegram and Snapchat: for those six platforms a
case-insensitive substring match in the link text alone is sufficient, but
Discord, the YouTube-channel pattern and Email match only on the URL, so a
text-only `discord` match yields no label. -/
theorem claim6_amended (t u : String) (h : urlHasNoPlatformKeyword u) :
    _normalize_platform t u = textOnlyNormalize (pyLower t) := by
  have h1 := h "instagram" (by decide)
  have h2 := h "tiktok" (by decide)
  have h3 := h "twitter" (by decide)
  have h4 := h "x.com" (by decide)
  have h5 := h "facebook" (by decide)
  have h6 := h "telegram" (by decide)
  have h7 := h "t.me" (by decide)
  have h8 := h "discord" (by decide)
  have h9 := h "discord.gg" (by decide)
  have h10 := h "snapchat" (by decide)
  have h11 := h "youtube.com/channel" (by decide)
  have h12 := h "youtube.com/c/" (by decide)
  have h13 := h "@" (by decide)
  simp only [_normalize_platform, textOnlyNormalize, h1, h2, h3, h4, h5, h6, h7,
    h8, h9, h10, h11, h12, h13, Bool.false_or, Bool.or_false, if_false,
    Bool.false_eq_true]

/-- Witness for C6 (amended) at a keyword-free URL and TikTok link text. -/
theorem claim6_amended_witness :
    urlHasNoPlatformKeyword "https://example.org/" ∧
    _normalize_platform "TikTok" "https://example.org/" =
      textOnlyNormalize (pyLower "TikTok") :=
  ⟨by decide, claim6_amended "TikTok" "https://example.org/" (by decide)⟩

/-- Claim C7 — the normalizer is total with a closed nine-label range: every
input yields either no match or one of the nine labels; and every pair the
Link Extractor stores carries one of those nine labels (anchors yielding no
match are dropped). -/
theorem claim7_total_closed_set :
    (∀ t u, _normalize_platform t u = none ∨
      ∃ l, _normalize_platform t u = some l ∧ l ∈ platformLabels) ∧
    (∀ env : ChannelPageEnv, ∀ pr ∈ extract_single_channel_links env,
      pr.1 ∈ platformLabels) := by
  constructor
  · intro t u
    rcases h : _normalize_platform t u with _ | l
    · exact Or.inl rfl
    · exact Or.inr ⟨l, rfl, normalize_mem_labels t u l h⟩
  · intro env pr hpr
    unfold extract_single_channel_links extractBodyE at hpr
    split_ifs at hpr <;> dsimp only at hpr
    · exact absurd hpr (List.not_mem_nil pr)
    · exact absurd hpr (List.not_mem_nil pr)
    · rcases List.mem_append.mp hpr with hmem | hmem
      · obtain ⟨a, _, hpa⟩ := List.mem_filterMap.mp hmem
        exact processAnchor_mem a.text a.href pr hpa
      · obtain ⟨e, _, hpe⟩ := List.mem_filterMap.mp hmem
        by_cases hok : e.lookupOk = true
        · rw [if_pos hok] at hpe
          exact processAnchor_mem e.titleText e.href pr hpe
        · rw [if_neg hok] at hpe
          exact Option.noConfusion hpe
    · rcases List.mem_append.mp hpr with hmem | hmem
      · obtain ⟨a, _, hpa⟩ := List.mem_filterMap.mp hmem
        exact processAnchor_mem a.text a.href pr hpa
      · exact absurd hmem (List.not_mem_nil pr)

/-- Witness for C7 at a concrete page with one Instagram anchor. -/
theorem claim7_total_closed_set_witness :
    ("Instagram", "https://instagram.com/a") ∈
      extract_single_channel_links
        ⟨true, true, [⟨"t", some "https://instagram.com/a"⟩], false, []⟩ ∧
    "Instagram" ∈ platformLabels := by
  have hmem : ("Instagram", "https://instagram.com/a") ∈
      extract_single_channel_links
        ⟨true, true, [⟨"t", some "https://instagram.com/a"⟩], false, []⟩ := by decide
  exact ⟨hmem, claim7_total_closed_set.2 _ _ hmem⟩

/-- Claim C1 counterexample — with every attempt raising (driver creation
fails) and `MAX_RETRIES = 3`, the retry budget is exhausted by exceptions
(backoff trace `[2, 4]`), yet the resolution result recorded for the alias is
the `"Not Found"` sentinel, not the `"Error"` sentinel: `search_single_channel`
returns `None` after exhaustion, and `search_channels` maps `None` to
`"Not Found"`. -/
theorem claim1_counterexample :
    runAttempt "alice" ⟨false, .ok, false, false, .ok, []⟩ = .error () ∧
    search_single_channel "alice" (fun _ => ⟨false, .ok, false, false, .ok, []⟩) 3 =
      (none, [2, 4]) ∧
    search_channels [("alice",
      .ok (search_single_channel "alice" (fun _ => ⟨false, .ok, false, false, .ok, []⟩) 3).1)] =
      [("alice", "Not Found")] ∧
    ("Not Found" : String) ≠ "Error" :=
  ⟨rfl, rfl, rfl, by decide⟩

/-- Claim C1 (amended) — any exception during a resolution attempt counts as
one failed attempt; attempts are retried up to the configured maximum with a
wait of `2^attempt` seconds between attempts (2s after attempt 1, 4s after
attempt 2, …, none after the last); but exhausting the retry budget returns
`None`, which `search_channels` records as the same `"Not Found"` sentinel
used for confirmed absence — the `"Error"` sentinel is produced only when the
submitted worker itself raises, which `search_single_channel` never does. -/
theorem claim1_amended (name : String) (env : Nat → AttemptEnv) (m : Nat)
    (hall : ∀ i, i < m → runAttempt name (env i) = .error ()) :
    search_single_channel name env m = (none, backoffWaits m) ∧
    search_channels [(name, .ok (search_single_channel name env m).1)] =
      [(name, "Not Found")] := by
  have h1 : search_single_channel name env m = (none, backoffWaits m) := by
    unfold search_single_channel backoffWaits
    rw [resolveAux_all_errors name env m hall m 0 (by omega)]
    refine congrArg (Prod.mk none) (List.map_congr_left ?_)
    intro i _
    congr 1
    omega
  refine ⟨h1, ?_⟩
  rw [h1]
  simp [search_channels, rowValue]

/-- Witness for C1 (amended): three attempts that all raise. -/
theorem claim1_amended_witness :
    search_single_channel "alice" (fun _ => ⟨false, .ok, false, false, .ok, []⟩) 3 =
      (none, backoffWaits 3) ∧
    search_channels [("alice",
      .ok (search_single_channel "alice" (fun _ => ⟨false, .ok, false, false, .ok, []⟩) 3).1)] =
      [("alice", "Not Found")] :=
  claim1_amended "alice" (fun _ => ⟨false, .ok, false, false, .ok, []⟩) 3 (fun _ _ => rfl)

/-- Claim C3 counterexample — an attempt whose direct-URL fetch times out and
whose search fetch raises is not retried at all: `safe_get` swallows both
failures and returns `False`, the attempt falls through to `return None`, and
the alias surfaces immediately as `"Not Found"` with an empty backoff trace
— not as `"Error"` after budget exhaustion. -/
theorem claim3_counterexample :
    safe_get NavOutcome.timeout = false ∧
    safe_get NavOutcome.exn = false ∧
    runAttempt "bob" ⟨true, .timeout, false, false, .exn, []⟩ = .ok none ∧
    search_single_channel "bob" (fun _ => ⟨true, .timeout, false, false, .exn, []⟩) 3 =
      (none, []) ∧
    search_channels [("bob", .ok none)] = [("bob", "Not Found")] :=
  ⟨rfl, rfl, rfl, rfl, rfl⟩

/-- Claim C3 (amended) — a navigation timeout or exception during a fetch is
caught inside `safe_get` and surfaced as `False`, so an attempt in which both
the direct-URL fetch and the search fetch fail transiently returns `None`
(`"Not Found"`) immediately on the first attempt: the Resolver's
retry/backoff never runs for navigation failures, and no `Error` sentinel can
arise from them. -/
theorem claim3_amended (name : String) (env : Nat → AttemptEnv) (m : Nat)
    (hm : 0 < m) (hc : (env 0).createOk = true)
    (hd : safe_get (env 0).directNav = false)
    (hs : safe_get (env 0).searchNav = false) :
    search_single_channel name env m = (none, []) ∧
    search_channels [(name, .ok (search_single_channel name env m).1)] =
      [(name, "Not Found")] := by
  have hrun : runAttempt name (env 0) = .ok none := by
    simp [runAttempt, hc, hd, hs]
  have h1 : search_single_channel name env m = (none, []) := by
    obtain ⟨k, rfl⟩ : ∃ k, m = k + 1 := ⟨m - 1, by omega⟩
    unfold search_single_channel
    rw [resolveAux_succ, hrun]
  refine ⟨h1, ?_⟩
  rw [h1]
  simp [search_channels, rowValue]

/-- Witness for C3 (amended) at a concrete attempt environment. -/
theorem claim3_amended_witness :
    search_single_channel "bob" (fun _ => ⟨true, .timeout, false, false, .exn, []⟩) 3 =
      (none, []) ∧
    search_channels [("bob",
      .ok (search_single_channel "bob" (fun _ => ⟨true, .timeout, false, false, .exn, []⟩) 3).1)] =
      [("bob", "Not Found")] :=
  claim3_amended "bob" (fun _ => ⟨true, .timeout, false, false, .exn, []⟩) 3
    (by decide) rfl rfl rfl

/-- Claim C2 counterexample — `extract_social_links` silently drops input
items: a channel URL whose extraction returns no links (here because the
featured-page fetch failed) contributes zero rows to the batch output, and so
does one whose worker raises; the input item is missing from the output,
contradicting "every input item yields at least one entry". -/
theorem claim2_counterexample :
    extract_single_channel_links
      ⟨true, false, [⟨"ig", some "https://instagram.com/a"⟩], true, []⟩ = [] ∧
    extract_social_links [("https://www.youtube.com/@c",
      .ok (extract_single_channel_links
        ⟨true, false, [⟨"ig", some "https://instagram.com/a"⟩], true, []⟩))] = [] ∧
    extract_social_links [("https://www.youtube.com/@c", .error ())] = [] :=
  ⟨rfl, rfl, rfl⟩

/-- Claim C2 (amended) — `search_channels` yields exactly one entry per input
item, converting a raising worker to the `"Error"` sentinel, so no alias is
ever missing; `extract_social_links`, however, emits exactly one row per
extracted link (its row count is the sum of the per-item link counts), so an
input channel whose worker raises or returns no links is silently absent
from the batch output. -/
theorem claim2_amended :
    (∀ completed : List (String × Except Unit (Option String)),
      (search_channels completed).length = completed.length ∧
      ∀ it ∈ completed,
        (it.1, match it.2 with | .ok r => rowValue r | .error _ => "Error") ∈
          search_channels completed) ∧
    (∀ completed : List (String × Except Unit (List (String × String))),
      (extract_social_links completed).length =
        (completed.map (fun it =>
          match it.2 with | .ok links => links.length | .error _ => 0)).sum) := by
  constructor
  · intro completed
    refine ⟨by simp [search_channels], ?_⟩
    intro it hit
    have hmm := List.mem_map_of_mem
      (fun it : String × Except Unit (Option String) =>
        match it.2 with
        | .ok r => (it.1, rowValue r)
        | .error _ => (it.1, "Error")) hit
    rcases it with ⟨name, out⟩
    cases out <;> simpa [search_channels] using hmm
  · exact extract_social_links_length

/-- Witness for C2 (amended) at concrete one- and two-item batches. -/
theorem claim2_amended_witness :
    ("a", "Error") ∈ search_channels [("a", Except.error ())] ∧
    (extract_social_links [("u", Except.ok [("Instagram", "https://instagram.com/a")]),
      ("v", Except.error ())]).length = 1 := by
  constructor
  · exact (claim2_amended.1 [("a", Except.error ())]).2 ("a", Except.error ())
      (List.mem_singleton.mpr rfl)
  · exact claim2_amended.2
      [("u", Except.ok [("Instagram", "https://instagram.com/a")]), ("v", Except.error ())]

end Scraper
